import Mathlib

/-!
Verification development for the artifact-metadata model of
`src/mlrun/artifacts/base.py`: the artifact data model, its upload
protocol, store addressing, content hashing and the legacy-compatibility
layer.  Python values relevant to the claims are shallowly embedded;
stateful methods become explicit state-passing functions returning the
updated record together with the list of store operations performed and
an optional raised error.  Helper functions that the source imports from
sibling modules (`generate_artifact_uri`, `get_store_uri`,
`ModelObj.to_dict`, `calculate_local_file_hash`) are modelled from the
specification and marked as such in their doc comments.
-/

set_option maxHeartbeats 1000000
set_option maxRecDepth 100000

/-- A Python artifact body: either a text string or raw bytes
(bytes are naturals, each intended `< 256`). -/
inductive PyBody where
  | str (s : String)
  | bytes (b : List Nat)
deriving DecidableEq, Repr

/-- A Python value as it appears in `to_dict` outputs and field slots of
the artifact records.  Opaque payload fields (producer, annotations,
updated) are carried as plain strings, since the source never inspects
their structure. -/
inductive PyVal where
  | vnone
  | vstr (s : String)
  | vint (n : Nat)
  | vbytes (b : List Nat)
  | vstrdict (l : List (String × String))
  | vstrlist (l : List String)
  | vextra (l : List (String × PyBody))
deriving DecidableEq, Repr

/-- Python truthiness of an optional string (`None` and `""` are falsy). -/
def truthyStrOpt : Option String → Bool
  | none => false
  | some s => !(s == "")

/-- Python truthiness of an optional integer (`None` and `0` are falsy). -/
def truthyNatOpt : Option Nat → Bool
  | none => false
  | some n => !(n == 0)

/-- Python truthiness of a body value (empty text and empty bytes are falsy). -/
def truthyBody : PyBody → Bool
  | PyBody.str s => !(s == "")
  | PyBody.bytes b => !b.isEmpty

/-- Python truthiness of an optional body. -/
def truthyBodyOpt : Option PyBody → Bool
  | none => false
  | some b => truthyBody b

/-- Python `x or y` on optional strings. -/
def pyOrStr (x y : Option String) : Option String :=
  if truthyStrOpt x then x else y

/-- Python `x or y` on optional integers. -/
def pyOrNat (x y : Option Nat) : Option Nat :=
  if truthyNatOpt x then x else y

/-- UTF-8 encoding of a single character (standard 1-4 byte layout). -/
def utf8Char (c : Char) : List Nat :=
  let n := c.toNat
  if n < 128 then [n]
  else if n < 2048 then [192 + n / 64, 128 + n % 64]
  else if n < 65536 then [224 + n / 4096, 128 + n / 64 % 64, 128 + n % 64]
  else [240 + n / 262144, 128 + n / 4096 % 64, 128 + n / 64 % 64, 128 + n % 64]

/-- UTF-8 encoding of a string, as Python `str.encode()` produces. -/
def utf8Encode (s : String) : List Nat :=
  (s.data.map utf8Char).flatten

/-- Python `len` of a body: number of code points for text, number of
bytes for bytes. -/
def pyLen : PyBody → Nat
  | PyBody.str s => s.length
  | PyBody.bytes b => b.length

/-! ### SHA-1 (the `hashlib.sha1` collaborator, FIPS 180-4) -/

/-- Truncate to a 32-bit word. -/
def w32 (n : Nat) : Nat := n % 4294967296

/-- Left-rotate a 32-bit word by `s` positions (`0 < s < 32`). -/
def rotl (s x : Nat) : Nat :=
  (x % 2 ^ (32 - s)) * 2 ^ s + x / 2 ^ (32 - s)

/-- Big-endian 8-byte encoding of a natural number. -/
def be8 (n : Nat) : List Nat :=
  (List.range 8).map (fun i => n / 2 ^ (8 * (7 - i)) % 256)

/-- SHA-1 message padding: append `0x80`, zeros to 56 mod 64, then the
bit length as 8 big-endian bytes. -/
def sha1pad (msg : List Nat) : List Nat :=
  let r := (msg.length + 1) % 64
  let k := (56 + 64 - r) % 64
  msg ++ [128] ++ List.replicate k 0 ++ be8 (8 * msg.length)

/-- Split a list into chunks of 64 elements (fuel-driven structural
recursion; fuel `l.length` always suffices since each step consumes 64
elements). -/
def chunks64Aux : Nat → List Nat → List (List Nat)
  | _, [] => []
  | 0, _ => []
  | fuel + 1, l => l.take 64 :: chunks64Aux fuel (l.drop 64)

/-- Split a list into chunks of 64 elements. -/
def chunks64 (l : List Nat) : List (List Nat) := chunks64Aux l.length l

/-- Big-endian word value of a byte list. -/
def beWord (b : List Nat) : Nat := b.foldl (fun acc x => acc * 256 + x) 0

/-- The 16 initial 32-bit words of a 64-byte block. -/
def blockWords (blk : List Nat) : List Nat :=
  (List.range 16).map (fun i => beWord ((blk.drop (4 * i)).take 4))

/-- Message-schedule extension: append `fuel` further words, each the
1-rotation of the xor of the words 3, 8, 14 and 16 positions back. -/
def sha1ext : List Nat → Nat → List Nat
  | ws, 0 => ws
  | ws, fuel + 1 =>
    let n := ws.length
    let w := rotl 1 (ws.getD (n - 3) 0 ^^^ ws.getD (n - 8) 0 ^^^
                     ws.getD (n - 14) 0 ^^^ ws.getD (n - 16) 0)
    sha1ext (ws ++ [w]) fuel

/-- SHA-1 round function. -/
def sha1f (t b c d : Nat) : Nat :=
  if t < 20 then (b &&& c) ||| ((b ^^^ 4294967295) &&& d)
  else if t < 40 then b ^^^ c ^^^ d
  else if t < 60 then (b &&& c) ||| (b &&& d) ||| (c &&& d)
  else b ^^^ c ^^^ d

/-- SHA-1 round constants. -/
def sha1k (t : Nat) : Nat :=
  if t < 20 then 1518500249
  else if t < 40 then 1859775393
  else if t < 60 then 2400959708
  else 3395469782

/-- One SHA-1 round on the five-word state. -/
def sha1round (st : Nat × Nat × Nat × Nat × Nat) (tw : Nat × Nat) :
    Nat × Nat × Nat × Nat × Nat :=
  let (a, b, c, d, e) := st
  let (t, w) := tw
  let tmp := w32 (rotl 5 a + sha1f t b c d + e + sha1k t + w)
  (tmp, a, rotl 30 b, c, d)

/-- Process one 64-byte block into the running five-word digest state. -/
def sha1block (h : Nat × Nat × Nat × Nat × Nat) (blk : List Nat) :
    Nat × Nat × Nat × Nat × Nat :=
  let ws := sha1ext (blockWords blk) 64
  let (a, b, c, d, e) := ((List.range 80).zip ws).foldl sha1round h
  let (h0, h1, h2, h3, h4) := h
  (w32 (h0 + a), w32 (h1 + b), w32 (h2 + c), w32 (h3 + d), w32 (h4 + e))

/-- Lower-case hexadecimal digit. -/
def hexCh (n : Nat) : Char :=
  if n < 10 then Char.ofNat (48 + n) else Char.ofNat (87 + n)

/-- Eight-hex-digit rendering of a 32-bit word. -/
def hex8 (n : Nat) : List Char :=
  (List.range 8).map (fun i => hexCh (n / 16 ^ (7 - i) % 16))

/-- SHA-1 hex digest of a byte list, as `hashlib.sha1(data).hexdigest()`. -/
def sha1Hex (msg : List Nat) : String :=
  let (h0, h1, h2, h3, h4) :=
    (chunks64 (sha1pad msg)).foldl sha1block
      (1732584193, 4023233417, 2562383102, 271733878, 3285377520)
  ⟨([h0, h1, h2, h3, h4].map hex8).flatten⟩

/-- `blob_hash` (src/mlrun/artifacts/base.py:1000-1005): sha1 hex digest;
text is UTF-8 encoded first. -/
def blob_hash : PyBody → String
  | PyBody.str s => sha1Hex (utf8Encode s)
  | PyBody.bytes b => sha1Hex b

/-- FIPS 180-4 test vector anchoring the SHA-1 model. -/
theorem sha1Hex_abc :
    sha1Hex [97, 98, 99] = "a9993e364706816aba3e25717850c26c9cd0d89d" := by rfl

/-! ### Decimal rendering of naturals (Python f-string `{iter}`) -/

/-- Little-endian base-10 digits, fuel-driven (fuel `n` suffices). -/
def natDigitsAux : Nat → Nat → List Nat
  | 0, _ => []
  | fuel + 1, n => if n = 0 then [] else n % 10 :: natDigitsAux fuel (n / 10)

/-- Little-endian base-10 digits of `n` (empty for 0). -/
def natDigits (n : Nat) : List Nat := natDigitsAux n n

/-- The character of a decimal digit. -/
def digitCh (d : Nat) : Char := Char.ofNat (48 + d)

/-- Decimal rendering of a natural number, as Python `str(n)`. -/
def natRepr (n : Nat) : String :=
  if n = 0 then "0" else ⟨((natDigits n).map digitCh).reverse⟩

/-! ### Store addressing -/

/-- Python f-string rendering of an optional string (`None` prints as
`"None"`). -/
def optToPyStr : Option String → String
  | some s => s
  | none => "None"

/-- Modelled from the spec: `generate_artifact_uri` (imported by the
source from `..utils`, not under src/) produces the generated path that
"encodes project, db_key, optional tag, optional iteration in a fixed,
stable textual layout": `project/key`, then `#iter` when an iteration is
given, then `:tag` when a tag is given. -/
def generate_artifact_uri (project key : String) (tag : Option String)
    (iter : Option Nat) : String :=
  let u := project ++ "/" ++ key
  let u := match iter with
    | some i => u ++ "#" ++ natRepr i
    | none => u
  match tag with
  | some t => u ++ ":" ++ t
  | none => u

/-- Modelled from the spec: `get_store_uri` (imported by the source from
`..datastore`, not under src/) prepends the canonical store scheme and
kind marker: `store://<marker>/<generated-path>`. -/
def get_store_uri (kind uri : String) : String :=
  "store://" ++ kind ++ "/" ++ uri

/-- The store-prefix marker for artifacts (`StorePrefix.Artifact`). -/
def artifactMarker : String := "artifacts"

/-! ### The artifact records (src/mlrun/artifacts/base.py:30-156) -/

/-- `ArtifactMetadata` (src/mlrun/artifacts/base.py:30-66): identity and
provenance record. -/
structure ArtifactMetadata where
  key : Option String
  project : Option String
  iter : Option Nat
  tree : Option String
  description : Option String
  hash : Option String
  tag : Option String
  labels : List (String × String)
  updated : Option String
deriving DecidableEq, Repr

/-- The record `ArtifactMetadata.__init__` builds with no arguments. -/
def ArtifactMetadata.default : ArtifactMetadata :=
  ⟨none, none, none, none, none, none, none, [], none⟩

/-- `ArtifactSpec` (src/mlrun/artifacts/base.py:69-139): payload and
placement record.  `body` is the private `_body`, `is_inline` the private
`_is_inline`.  `producer` and `annotations` are opaque payload slots. -/
structure ArtifactSpec where
  src_path : Option String
  target_path : Option String
  viewer : Option String
  is_inline : Bool
  format : Option String
  size : Option Nat
  db_key : Option String
  extra_data : List (String × PyBody)
  body : Option PyBody
  encoding : Option String
  annotations : Option String
  sources : List String
  producer : Option String
  license : String
deriving DecidableEq, Repr

/-- The record `ArtifactSpec.__init__` builds with no arguments. -/
def ArtifactSpec.default : ArtifactSpec :=
  ⟨none, none, none, false, none, none, none, [], none, none, none, [], none, ""⟩

/-- `ArtifactSpec.inline` property (src/mlrun/artifacts/base.py:125-131):
returns the body when the inline flag is set, else `None`. -/
def ArtifactSpec.inline (s : ArtifactSpec) : Option PyBody :=
  if s.is_inline then s.body else none

/-- The composed `Artifact` entity (src/mlrun/artifacts/base.py:152-190):
one metadata + one spec + one status (`state` field); `kind` is the
per-variant class attribute carried as data. -/
structure Artifact where
  kind : String
  meta : ArtifactMetadata
  spec : ArtifactSpec
  state : String
deriving DecidableEq, Repr

/-- `Artifact.__init__` (src/mlrun/artifacts/base.py:158-190).  The
process-wide `mlrun.mlconf.default_project` is passed explicitly as
`cfgProject`.  A supplied metadata/spec is used as-is; an absent one is
default-constructed (the raw-mapping coercion path of `_verify_dict` is
not exercised by the claims). -/
def Artifact.init (cfgProject : Option String) (key : Option String)
    (body : Option PyBody) (viewer : Option String) (is_inline : Bool)
    (format : Option String) (size : Option Nat) (target_path : Option String)
    (project : Option String) (meta0 : Option ArtifactMetadata)
    (spec0 : Option ArtifactSpec) : Artifact :=
  let m := meta0.getD ArtifactMetadata.default
  let s := spec0.getD ArtifactSpec.default
  let m := { m with
    key := pyOrStr key m.key,
    project := pyOrStr (pyOrStr project cfgProject) m.project }
  let s := { s with
    size := pyOrNat size s.size,
    target_path := pyOrStr target_path s.target_path,
    format := pyOrStr format s.format,
    viewer := pyOrStr viewer s.viewer }
  let s := if truthyBodyOpt body then { s with body := body } else s
  let s := { s with is_inline := is_inline || s.is_inline }
  { kind := "artifact", meta := m, spec := s, state := "created" }

/-- `Artifact.get_store_url` (src/mlrun/artifacts/base.py:243-249). -/
def Artifact.get_store_url (a : Artifact) (with_tag : Bool)
    (project : Option String) : String :=
  let tag := if with_tag then a.meta.tree else none
  let uri := generate_artifact_uri (optToPyStr (pyOrStr project a.meta.project))
    (optToPyStr a.spec.db_key) tag a.meta.iter
  get_store_uri artifactMarker uri

/-! ### The external world: filesystem and store calls -/

/-- The local filesystem collaborator (`os.listdir`, `os.path.isfile`,
file contents for `os.stat().st_size` and the file hash). -/
structure FileSys where
  listdir : String → List String
  isfile : String → Bool
  fileBytes : String → List Nat

/-- A call handed to the external store collaborator
(`store_manager.object(url=...).put/upload`). -/
inductive StoreCall where
  | putData (url : Option String) (data : PyBody)
  | uploadSrc (url : Option String) (src : String)
deriving DecidableEq, Repr

/-- Whether a string begins with `/` (an absolute POSIX path). -/
def headIsSlash (s : String) : Bool :=
  match s.data with
  | c :: _ => c == '/'
  | [] => false

/-- Whether a string ends with `/`. -/
def lastIsSlash (s : String) : Bool :=
  match s.data.getLast? with
  | some c => c == '/'
  | none => false

/-- Whether `pat` occurs as a contiguous substring of `l`. -/
def listHasInfix (pat : List Char) : List Char → Bool
  | [] => pat.isEmpty
  | l@(_ :: t) => pat.isPrefixOf l || listHasInfix pat t

/-- Python `"://" in s` (a scheme separator occurs in `s`). -/
def hasSchemeSep (s : String) : Bool := listHasInfix "://".data s.data

/-- `os.path.join` for the join patterns the source uses. -/
def os_path_join (a b : String) : String :=
  if headIsSlash b then b
  else if a == "" then b
  else if lastIsSlash a then a ++ b
  else a ++ "/" ++ b

/-- Modelled from the spec: `calculate_local_file_hash` (imported by the
source from `..utils`, not under src/) hashes "the file's bytes" —
sha1 hex digest of the file contents. -/
def calculate_local_file_hash (fs : FileSys) (path : String) : String :=
  sha1Hex (fs.fileBytes path)

/-! ### Upload operations (src/mlrun/artifacts/base.py:260-280) -/

/-- `Artifact._upload_body` (src/mlrun/artifacts/base.py:270-274): record
hash (when the process-wide flag is on) and size, then `put` the body at
`target_path`. -/
def Artifact.upload_body (hashOn : Bool) (a : Artifact) (b : PyBody) :
    Artifact × List StoreCall :=
  let a := if hashOn then { a with meta := { a.meta with hash := some (blob_hash b) } } else a
  let a := { a with spec := { a.spec with size := some (pyLen b) } }
  (a, [StoreCall.putData a.spec.target_path b])

/-- `Artifact._upload_file` (src/mlrun/artifacts/base.py:276-280): record
the file hash (when the flag is on) and the file's byte size, then
`upload` the file at `target_path`. -/
def Artifact.upload_file (hashOn : Bool) (fs : FileSys) (a : Artifact)
    (src : String) : Artifact × List StoreCall :=
  let a := if hashOn then
    { a with meta := { a.meta with hash := some (calculate_local_file_hash fs src) } } else a
  let a := { a with spec := { a.spec with size := some (fs.fileBytes src).length } }
  (a, [StoreCall.uploadSrc a.spec.target_path src])

/-- `Artifact.upload` (src/mlrun/artifacts/base.py:260-268): body first
(when truthy), else the source file (when set and a regular file), else a
no-op. -/
def Artifact.upload (hashOn : Bool) (fs : FileSys) (a : Artifact) :
    Artifact × List StoreCall :=
  let src_path := a.spec.src_path
  if truthyBodyOpt a.spec.body then
    Artifact.upload_body hashOn a (a.spec.body.getD (PyBody.bytes []))
  else if truthyStrOpt src_path && fs.isfile (src_path.getD "") then
    Artifact.upload_file hashOn fs a (src_path.getD "")
  else (a, [])

/-! ### Directory artifacts (src/mlrun/artifacts/base.py:702-738) -/

/-- The per-file loop of `DirArtifact.upload`
(src/mlrun/artifacts/base.py:732-738): upload each regular file, raise at
the first non-regular entry, keeping the uploads already made. -/
def dirUploadLoop (fs : FileSys) (srcp tgtp : String) :
    List String → List StoreCall × Option String
  | [] => ([], none)
  | f :: rest =>
    let fp := os_path_join srcp f
    if fs.isfile fp then
      let r := dirUploadLoop fs srcp tgtp rest
      (StoreCall.uploadSrc (some (os_path_join tgtp f)) fp :: r.1, r.2)
    else ([], some ("file " ++ fp ++ " not found, cant upload"))

/-- `DirArtifact.upload` (src/mlrun/artifacts/base.py:728-738).  The
result is the (unmodified) artifact, the store calls performed in order,
and the raised `ValueError` message if any.  `target_path` is read with
default `""` where Python would raise a `TypeError` on `None`. -/
def DirArtifact.upload (fs : FileSys) (a : Artifact) :
    Artifact × List StoreCall × Option String :=
  if !truthyStrOpt a.spec.src_path then
    (a, [], some "local/source path not specified")
  else
    let srcp := a.spec.src_path.getD ""
    let r := dirUploadLoop fs srcp (a.spec.target_path.getD "") (fs.listdir srcp)
    (a, r.1, r.2)

/-! ### The legacy artifact (src/mlrun/artifacts/base.py:793-973) -/

/-- `LegacyArtifact` (src/mlrun/artifacts/base.py:793-847): the flat
pre-split record carrying metadata and spec fields merged.  `body` is the
private `_body`, `is_inline` the private `_inline`. -/
structure LegacyArtifact where
  kind : String
  key : Option String
  project : Option String
  db_key : Option String
  size : Option Nat
  iter : Option Nat
  tree : Option String
  updated : Option String
  target_path : Option String
  src_path : Option String
  body : Option PyBody
  format : Option String
  description : Option String
  viewer : Option String
  encoding : Option String
  labels : List (String × String)
  annotations : Option String
  sources : List String
  producer : Option String
  hash : Option String
  is_inline : Bool
  license : String
  extra_data : List (String × PyBody)
  tag : Option String
deriving DecidableEq, Repr

/-- `LegacyArtifact.inline` property (src/mlrun/artifacts/base.py:859-864). -/
def LegacyArtifact.inline (l : LegacyArtifact) : Option PyBody :=
  if l.is_inline then l.body else none

/-- `LegacyArtifact.get_store_url` (src/mlrun/artifacts/base.py:889-895). -/
def LegacyArtifact.get_store_url (l : LegacyArtifact) (with_tag : Bool)
    (project : Option String) : String :=
  let tag := if with_tag then l.tree else none
  let uri := generate_artifact_uri (optToPyStr (pyOrStr project l.project))
    (optToPyStr l.db_key) tag l.iter
  get_store_uri artifactMarker uri

/-- `LegacyDirArtifact.upload` (src/mlrun/artifacts/base.py:963-973):
same per-file loop over the flat record's fields. -/
def LegacyDirArtifact.upload (fs : FileSys) (l : LegacyArtifact) :
    LegacyArtifact × List StoreCall × Option String :=
  if !truthyStrOpt l.src_path then
    (l, [], some "local/source path not specified")
  else
    let srcp := l.src_path.getD ""
    let r := dirUploadLoop fs srcp (l.target_path.getD "") (fs.listdir srcp)
    (l, r.1, r.2)

/-! ### Extra-data upload (src/mlrun/artifacts/base.py:1008-1037) -/

/-- Resolution of a relative extra-data path against `src_path`
(src/mlrun/artifacts/base.py:1026-1030). -/
def resolveExtraPath (sp : Option String) (item : String) : String :=
  if truthyStrOpt sp then os_path_join (sp.getD "") item else item

/-- Python dict assignment `d[k] = v` on an association list: update in
place when the key exists, else append. -/
def assocSet (l : List (String × PyBody)) (k : String) (v : PyBody) :
    List (String × PyBody) :=
  if l.any (fun p => p.1 == k) then
    l.map (fun p => if p.1 == k then (k, v) else p)
  else l ++ [(k, v)]

/-- The per-item loop of `upload_extra_data`
(src/mlrun/artifacts/base.py:1017-1037).  Returns the updated artifact,
the store calls performed in order, and the raised `ValueError` message
if any.  `target_path` is read with default `""` where Python would raise
a `TypeError` on `None`. -/
def uploadExtraLoop (fs : FileSys) (pfx : String) (upd : Bool) :
    Artifact → List (String × PyBody) → Artifact × List StoreCall × Option String
  | a, [] => (a, [], none)
  | a, (key, PyBody.bytes b) :: rest =>
    let target := os_path_join (a.spec.target_path.getD "") key
    let a := { a with spec := { a.spec with
      extra_data := assocSet a.spec.extra_data (pfx ++ key) (PyBody.str target) } }
    let r := uploadExtraLoop fs pfx upd a rest
    (r.1, StoreCall.putData (some target) (PyBody.bytes b) :: r.2.1, r.2.2)
  | a, (key, PyBody.str item) :: rest =>
    if !(headIsSlash item || hasSchemeSep item) then
      let sp := resolveExtraPath a.spec.src_path item
      if !fs.isfile sp then
        (a, [], some ("extra data file " ++ sp ++ " not found"))
      else
        let target := os_path_join (a.spec.target_path.getD "") item
        let a := if upd then { a with spec := { a.spec with
          extra_data := assocSet a.spec.extra_data (pfx ++ key) (PyBody.str item) } } else a
        let r := uploadExtraLoop fs pfx upd a rest
        (r.1, StoreCall.uploadSrc (some target) sp :: r.2.1, r.2.2)
    else
      let a := if upd then { a with spec := { a.spec with
        extra_data := assocSet a.spec.extra_data (pfx ++ key) (PyBody.str item) } } else a
      uploadExtraLoop fs pfx upd a rest

/-- `upload_extra_data` (src/mlrun/artifacts/base.py:1008-1037). -/
def upload_extra_data (fs : FileSys) (a : Artifact)
    (extra : List (String × PyBody)) (pfx : String) (upd : Bool) :
    Artifact × List StoreCall × Option String :=
  if extra.isEmpty then (a, [], none) else uploadExtraLoop fs pfx upd a extra

/-! ### Field projection / `to_dict` (spec section 4.1) -/

/-- A `PyVal` that Python `to_dict` treats as empty (falsy) and omits. -/
def PyVal.isEmptyVal : PyVal → Bool
  | PyVal.vnone => true
  | PyVal.vstr s => s == ""
  | PyVal.vint n => n == 0
  | PyVal.vbytes b => b.isEmpty
  | PyVal.vstrdict l => l.isEmpty
  | PyVal.vstrlist l => l.isEmpty
  | PyVal.vextra l => l.isEmpty

/-- Modelled from the spec: `ModelObj.to_dict` (imported by the source
from `..model`, not under src/) "returns a mapping containing only
entries present in `fields` ... that are non-empty on the instance";
projection of a field-valuation over a declared field list. -/
def projectFields (fv : String → PyVal) (fields : List String) :
    List (String × PyVal) :=
  (fields.filter (fun f => !(fv f).isEmptyVal)).map (fun f => (f, fv f))

/-- Lift an optional string to a `PyVal`. -/
def optStrVal : Option String → PyVal
  | some s => PyVal.vstr s
  | none => PyVal.vnone

/-- Lift an optional natural to a `PyVal`. -/
def optNatVal : Option Nat → PyVal
  | some n => PyVal.vint n
  | none => PyVal.vnone

/-- Lift an optional body to a `PyVal`. -/
def optBodyVal : Option PyBody → PyVal
  | some (PyBody.str s) => PyVal.vstr s
  | some (PyBody.bytes b) => PyVal.vbytes b
  | none => PyVal.vnone

/-- Field valuation of `ArtifactMetadata`. -/
def ArtifactMetadata.fieldVal (m : ArtifactMetadata) : String → PyVal
  | "key" => optStrVal m.key
  | "project" => optStrVal m.project
  | "iter" => optNatVal m.iter
  | "tree" => optStrVal m.tree
  | "description" => optStrVal m.description
  | "hash" => optStrVal m.hash
  | "tag" => optStrVal m.tag
  | "updated" => optStrVal m.updated
  | "labels" => PyVal.vstrdict m.labels
  | _ => PyVal.vnone

/-- `ArtifactMetadata._dict_fields + _extra_fields`
(src/mlrun/artifacts/base.py:31-32). -/
def metadataFields : List String :=
  ["key", "project", "iter", "tree", "description", "hash", "tag",
   "updated", "labels"]

/-- `ArtifactMetadata.to_dict` (src/mlrun/artifacts/base.py:57-59). -/
def ArtifactMetadata.to_dict (m : ArtifactMetadata) : List (String × PyVal) :=
  projectFields m.fieldVal metadataFields

/-- Field valuation of `ArtifactSpec`; `inline` reads through the
property (body when the inline flag is set). -/
def ArtifactSpec.fieldVal (s : ArtifactSpec) : String → PyVal
  | "src_path" => optStrVal s.src_path
  | "target_path" => optStrVal s.target_path
  | "viewer" => optStrVal s.viewer
  | "inline" => optBodyVal s.inline
  | "format" => optStrVal s.format
  | "size" => optNatVal s.size
  | "db_key" => optStrVal s.db_key
  | "extra_data" => PyVal.vextra s.extra_data
  | "annotations" => optStrVal s.annotations
  | "producer" => optStrVal s.producer
  | "sources" => PyVal.vstrlist s.sources
  | "license" => PyVal.vstr s.license
  | "encoding" => optStrVal s.encoding
  | _ => PyVal.vnone

/-- `ArtifactSpec._dict_fields + _extra_fields`
(src/mlrun/artifacts/base.py:70-81). -/
def specFields : List String :=
  ["src_path", "target_path", "viewer", "inline", "format", "size",
   "db_key", "extra_data", "annotations", "producer", "sources",
   "license", "encoding"]

/-- `ArtifactSpec.to_dict` (src/mlrun/artifacts/base.py:114-116). -/
def ArtifactSpec.to_dict (s : ArtifactSpec) : List (String × PyVal) :=
  projectFields s.fieldVal specFields

/-- The current artifact's `to_dict` output flattened: the top-level
`kind` entry followed by the entries of the nested metadata, spec and
status dicts. -/
def Artifact.flatDict (a : Artifact) : List (String × PyVal) :=
  projectFields (fun f => if f == "kind" then PyVal.vstr a.kind else PyVal.vnone) ["kind"]
    ++ a.meta.to_dict ++ a.spec.to_dict
    ++ projectFields (fun f => if f == "state" then PyVal.vstr a.state else PyVal.vnone) ["state"]

/-- Field valuation of `LegacyArtifact`. -/
def LegacyArtifact.fieldVal (l : LegacyArtifact) : String → PyVal
  | "key" => optStrVal l.key
  | "kind" => PyVal.vstr l.kind
  | "iter" => optNatVal l.iter
  | "tree" => optStrVal l.tree
  | "src_path" => optStrVal l.src_path
  | "target_path" => optStrVal l.target_path
  | "hash" => optStrVal l.hash
  | "description" => optStrVal l.description
  | "viewer" => optStrVal l.viewer
  | "inline" => optBodyVal l.inline
  | "format" => optStrVal l.format
  | "size" => optNatVal l.size
  | "db_key" => optStrVal l.db_key
  | "extra_data" => PyVal.vextra l.extra_data
  | "tag" => optStrVal l.tag
  | "updated" => optStrVal l.updated
  | "labels" => PyVal.vstrdict l.labels
  | "annotations" => optStrVal l.annotations
  | "producer" => optStrVal l.producer
  | "sources" => PyVal.vstrlist l.sources
  | "project" => optStrVal l.project
  | _ => PyVal.vnone

/-- The field list of `LegacyArtifact.to_dict`
(src/mlrun/artifacts/base.py:795-811 and 901-906). -/
def legacyFields : List String :=
  ["key", "kind", "iter", "tree", "src_path", "target_path", "hash",
   "description", "viewer", "inline", "format", "size", "db_key",
   "extra_data", "tag", "updated", "labels", "annotations", "producer",
   "sources", "project"]

/-- `LegacyArtifact.to_dict` (src/mlrun/artifacts/base.py:901-906). -/
def LegacyArtifact.to_dict (l : LegacyArtifact) : List (String × PyVal) :=
  projectFields l.fieldVal legacyFields

/-! ### Concrete worlds used by closed witnesses -/

/-- A filesystem with no directories and no files. -/
def fs0 : FileSys := ⟨fun _ => [], fun _ => false, fun _ => []⟩

/-- A filesystem where every path is a regular file with bytes `[1, 2]`. -/
def fsAll : FileSys := ⟨fun _ => [], fun _ => true, fun _ => [1, 2]⟩

/-! ### C4 -/

/-- C4: `blob_hash` is a deterministic pure function: on a text string it
equals `blob_hash` of the UTF-8 encoding of that string, on bytes it is
the sha1 hex digest of those bytes, and equal inputs always produce equal
outputs. -/
theorem C4_blob_hash_deterministic :
    (∀ s : String, blob_hash (PyBody.str s) = blob_hash (PyBody.bytes (utf8Encode s)))
    ∧ (∀ b : List Nat, blob_hash (PyBody.bytes b) = sha1Hex b)
    ∧ (∀ d e : PyBody, d = e → blob_hash d = blob_hash e) :=
  ⟨fun _ => rfl, fun _ => rfl, fun _ _ h => congrArg blob_hash h⟩

/-- C4 witness: the clauses at concrete inputs. -/
theorem C4_witness :
    blob_hash (PyBody.str "ab") = blob_hash (PyBody.bytes [97, 98])
    ∧ blob_hash (PyBody.bytes [97, 98]) = sha1Hex [97, 98]
    ∧ blob_hash (PyBody.str "ab") = blob_hash (PyBody.str "ab") :=
  ⟨C4_blob_hash_deterministic.1 "ab",
   C4_blob_hash_deterministic.2.1 [97, 98],
   C4_blob_hash_deterministic.2.2 (PyBody.str "ab") (PyBody.str "ab") rfl⟩

/-! ### C2 -/

/-- C2 counterexample: for the one-character text body `"é"`, `upload`
sets `spec.size` to `len(body) = 1` (the code point count), while the
byte length of the body's UTF-8 bytes is `2` — refuting the claim that
`spec.size` is set to the byte length for every inline body. -/
theorem C2_counterexample :
    (Artifact.upload true fs0
        (Artifact.init none (some "model") (some (PyBody.str "é")) none false
          none none (some "store://out/model") none none none)).1.spec.size = some 1
    ∧ (utf8Encode "é").length = 2
    ∧ ¬ ((Artifact.upload true fs0
        (Artifact.init none (some "model") (some (PyBody.str "é")) none false
          none none (some "store://out/model") none none none)).1.spec.size
        = some (utf8Encode "é").length) := by
  refine ⟨by rfl, by rfl, ?_⟩
  intro h
  simp only [show (Artifact.upload true fs0
      (Artifact.init none (some "model") (some (PyBody.str "é")) none false
        none none (some "store://out/model") none none none)).1.spec.size = some 1 from rfl,
    show (utf8Encode "é").length = 2 from rfl] at h
  exact absurd h (by decide)

/-- C2 (amended): for every artifact constructed with a truthy inline
body and a target_path, `upload()` with hashing enabled sets
`metadata.hash` to the sha1 hex digest of the body's bytes (text bodies
encoded first), sets `spec.size` to `len(body)` — byte count for bytes
bodies, character count for text bodies — and puts the body to the store
object at the artifact's `target_path`; in particular for body `b"abc"`
the hash is the sha1 hex digest of `b"abc"` and the size is 3. -/
theorem C2_upload_body (fs : FileSys) (cfg key viewer fmt tgt proj : Option String)
    (sz : Option Nat) (b : PyBody) (hb : truthyBody b = true) :
    (Artifact.upload true fs
        (Artifact.init cfg key (some b) viewer false fmt sz tgt proj none none)).1.meta.hash
      = some (blob_hash b)
    ∧ (Artifact.upload true fs
        (Artifact.init cfg key (some b) viewer false fmt sz tgt proj none none)).1.spec.size
      = some (pyLen b)
    ∧ (Artifact.upload true fs
        (Artifact.init cfg key (some b) viewer false fmt sz tgt proj none none)).2
      = [StoreCall.putData
          (Artifact.init cfg key (some b) viewer false fmt sz tgt proj none none).spec.target_path
          b] := by
  simp [Artifact.init, Artifact.upload, Artifact.upload_body, truthyBodyOpt, hb]

/-- C2 witness: the amended claim at body `b"abc"`, evaluating the hash
digest and size. -/
theorem C2_witness :
    (Artifact.upload true fs0
        (Artifact.init none (some "model") (some (PyBody.bytes [97, 98, 99])) none false
          none none (some "store://out/model") none none none)).1.meta.hash
      = some "a9993e364706816aba3e25717850c26c9cd0d89d"
    ∧ (Artifact.upload true fs0
        (Artifact.init none (some "model") (some (PyBody.bytes [97, 98, 99])) none false
          none none (some "store://out/model") none none none)).1.spec.size = some 3
    ∧ (Artifact.upload true fs0
        (Artifact.init none (some "model") (some (PyBody.bytes [97, 98, 99])) none false
          none none (some "store://out/model") none none none)).2
      = [StoreCall.putData (some "store://out/model") (PyBody.bytes [97, 98, 99])] := by
  have h := C2_upload_body fs0 none (some "model") none none (some "store://out/model")
    none none (PyBody.bytes [97, 98, 99]) (by decide)
  exact ⟨h.1.trans (by rfl), h.2.1.trans (by rfl), h.2.2.trans (by rfl)⟩

/-! ### C9 -/

/-- C9: for every artifact with no (truthy) inline body whose `src_path`
is unset, empty, or not a regular file, `upload()` returns normally with
no store call and the artifact record unchanged — in particular
`metadata.hash` and `spec.size` keep their prior values. -/
theorem C9_upload_noop (hashOn : Bool) (fs : FileSys) (a : Artifact)
    (hb : truthyBodyOpt a.spec.body = false)
    (hs : truthyStrOpt a.spec.src_path = false
          ∨ fs.isfile (a.spec.src_path.getD "") = false) :
    Artifact.upload hashOn fs a = (a, [])
    ∧ (Artifact.upload hashOn fs a).1.meta.hash = a.meta.hash
    ∧ (Artifact.upload hashOn fs a).1.spec.size = a.spec.size := by
  have h : Artifact.upload hashOn fs a = (a, []) := by
    unfold Artifact.upload
    rcases hs with h | h <;> simp [hb, h]
  exact ⟨h, by rw [h], by rw [h]⟩

/-- C9 witness: a freshly default-constructed artifact with neither body
nor source path uploads as a no-op. -/
theorem C9_witness :
    Artifact.upload true fs0
      (Artifact.init none (some "model") none none false none none none none none none)
      = (Artifact.init none (some "model") none none false none none none none none none, []) :=
  (C9_upload_noop true fs0
    (Artifact.init none (some "model") none none false none none none none none none)
    (by decide) (Or.inl (by decide))).1

/-! ### C10 -/

/-- C10: `DirArtifact.upload` and `LegacyDirArtifact.upload` never modify
`metadata.hash` or `spec.size` (the whole record is returned unchanged),
unlike the base `Artifact.upload`, which on a truthy body records the
body's hash and length. -/
theorem C10_dir_upload_frame :
    (∀ (fs : FileSys) (a : Artifact),
      (DirArtifact.upload fs a).1 = a
      ∧ (DirArtifact.upload fs a).1.meta.hash = a.meta.hash
      ∧ (DirArtifact.upload fs a).1.spec.size = a.spec.size)
    ∧ (∀ (fs : FileSys) (l : LegacyArtifact),
      (LegacyDirArtifact.upload fs l).1 = l
      ∧ (LegacyDirArtifact.upload fs l).1.hash = l.hash
      ∧ (LegacyDirArtifact.upload fs l).1.size = l.size)
    ∧ (∀ (fs : FileSys) (a : Artifact) (b : PyBody),
      a.spec.body = some b → truthyBody b = true →
      (Artifact.upload true fs a).1.meta.hash = some (blob_hash b)
      ∧ (Artifact.upload true fs a).1.spec.size = some (pyLen b)) := by
  refine ⟨fun fs a => ?_, fun fs l => ?_, fun fs a b hb htr => ?_⟩
  · have h : (DirArtifact.upload fs a).1 = a := by
      unfold DirArtifact.upload; split <;> rfl
    exact ⟨h, by rw [h], by rw [h]⟩
  · have h : (LegacyDirArtifact.upload fs l).1 = l := by
      unfold LegacyDirArtifact.upload; split <;> rfl
    exact ⟨h, by rw [h], by rw [h]⟩
  · unfold Artifact.upload
    simp [truthyBodyOpt, hb, htr, Artifact.upload_body]

/-- C10 witness: the frame property at a concrete directory artifact and
the contrast at a concrete body-carrying artifact. -/
theorem C10_witness :
    (DirArtifact.upload fsAll
      { kind := "dir", meta := ArtifactMetadata.default,
        spec := { ArtifactSpec.default with
          src_path := some "/src",
          target_path := some "store://t" },
        state := "created" }).1.meta.hash = none
    ∧ (Artifact.upload true fs0
        { kind := "artifact", meta := ArtifactMetadata.default,
          spec := { ArtifactSpec.default with
            body := some (PyBody.bytes [97, 98, 99]),
            target_path := some "store://t" },
          state := "created" }).1.spec.size = some 3 := by
  refine ⟨(C10_dir_upload_frame.1 fsAll _).2.1.trans (by rfl), ?_⟩
  have h := (C10_dir_upload_frame.2.2 fs0
    { kind := "artifact", meta := ArtifactMetadata.default,
      spec := { ArtifactSpec.default with
        body := some (PyBody.bytes [97, 98, 99]),
        target_path := some "store://t" },
      state := "created" } (PyBody.bytes [97, 98, 99]) (by rfl) (by decide)).2
  exact h.trans (by rfl)

/-! ### C6 -/

/-- C6 counterexample: with the project argument absent, a truthy
configured default project (`"default"`), and a supplied metadata that
provides project `"proj"`, construction sets `metadata.project` to the
configured default — refuting the claim that the default is used only
when neither the argument nor the supplied metadata provides a project. -/
theorem C6_counterexample :
    (Artifact.init (some "default") (some "model") none none false none none none none
        (some { ArtifactMetadata.default with project := some "proj" }) none).meta.project
      = some "default"
    ∧ ({ ArtifactMetadata.default with project := some "proj" } : ArtifactMetadata).project
      = some "proj"
    ∧ ¬ ((some "default" : Option String) = some "proj") := by
  refine ⟨by rfl, by rfl, by decide⟩

/-- C6 (amended): each truthy flat keyword argument (key, size,
target_path, format, viewer, project) overrides the corresponding field
of a supplied metadata/spec, and an absent argument leaves the supplied
field in force — except `project`: the project argument wins when
truthy, otherwise the process-wide configured default project wins when
truthy, and the supplied metadata's project is used only when both are
absent or empty. -/
theorem C6_init_precedence (cfg key viewer fmt tgt proj : Option String)
    (sz : Option Nat) (m : ArtifactMetadata) (s : ArtifactSpec) :
    (truthyStrOpt key = true →
      (Artifact.init cfg key none viewer false fmt sz tgt proj (some m) (some s)).meta.key = key)
    ∧ (key = none →
      (Artifact.init cfg key none viewer false fmt sz tgt proj (some m) (some s)).meta.key = m.key)
    ∧ (truthyNatOpt sz = true →
      (Artifact.init cfg key none viewer false fmt sz tgt proj (some m) (some s)).spec.size = sz)
    ∧ (sz = none →
      (Artifact.init cfg key none viewer false fmt sz tgt proj (some m) (some s)).spec.size = s.size)
    ∧ (truthyStrOpt tgt = true →
      (Artifact.init cfg key none viewer false fmt sz tgt proj (some m) (some s)).spec.target_path = tgt)
    ∧ (tgt = none →
      (Artifact.init cfg key none viewer false fmt sz tgt proj (some m) (some s)).spec.target_path = s.target_path)
    ∧ (truthyStrOpt fmt = true →
      (Artifact.init cfg key none viewer false fmt sz tgt proj (some m) (some s)).spec.format = fmt)
    ∧ (fmt = none →
      (Artifact.init cfg key none viewer false fmt sz tgt proj (some m) (some s)).spec.format = s.format)
    ∧ (truthyStrOpt viewer = true →
      (Artifact.init cfg key none viewer false fmt sz tgt proj (some m) (some s)).spec.viewer = viewer)
    ∧ (viewer = none →
      (Artifact.init cfg key none viewer false fmt sz tgt proj (some m) (some s)).spec.viewer = s.viewer)
    ∧ (truthyStrOpt proj = true →
      (Artifact.init cfg key none viewer false fmt sz tgt proj (some m) (some s)).meta.project = proj)
    ∧ (truthyStrOpt proj = false → truthyStrOpt cfg = true →
      (Artifact.init cfg key none viewer false fmt sz tgt proj (some m) (some s)).meta.project = cfg)
    ∧ (truthyStrOpt proj = false → truthyStrOpt cfg = false →
      (Artifact.init cfg key none viewer false fmt sz tgt proj (some m) (some s)).meta.project = m.project) := by
  have hk : (Artifact.init cfg key none viewer false fmt sz tgt proj (some m) (some s)).meta.key
      = pyOrStr key m.key := rfl
  have hp : (Artifact.init cfg key none viewer false fmt sz tgt proj (some m) (some s)).meta.project
      = pyOrStr (pyOrStr proj cfg) m.project := rfl
  have hz : (Artifact.init cfg key none viewer false fmt sz tgt proj (some m) (some s)).spec.size
      = pyOrNat sz s.size := rfl
  have ht : (Artifact.init cfg key none viewer false fmt sz tgt proj (some m) (some s)).spec.target_path
      = pyOrStr tgt s.target_path := rfl
  have hf : (Artifact.init cfg key none viewer false fmt sz tgt proj (some m) (some s)).spec.format
      = pyOrStr fmt s.format := rfl
  have hv : (Artifact.init cfg key none viewer false fmt sz tgt proj (some m) (some s)).spec.viewer
      = pyOrStr viewer s.viewer := rfl
  refine ⟨fun h => ?_, fun h => ?_, fun h => ?_, fun h => ?_, fun h => ?_, fun h => ?_,
    fun h => ?_, fun h => ?_, fun h => ?_, fun h => ?_, fun h => ?_,
    fun h h2 => ?_, fun h h2 => ?_⟩
  · rw [hk]; simp [pyOrStr, h]
  · rw [hk, h]; simp [pyOrStr, truthyStrOpt]
  · rw [hz]; simp [pyOrNat, h]
  · rw [hz, h]; simp [pyOrNat, truthyNatOpt]
  · rw [ht]; simp [pyOrStr, h]
  · rw [ht, h]; simp [pyOrStr, truthyStrOpt]
  · rw [hf]; simp [pyOrStr, h]
  · rw [hf, h]; simp [pyOrStr, truthyStrOpt]
  · rw [hv]; simp [pyOrStr, h]
  · rw [hv, h]; simp [pyOrStr, truthyStrOpt]
  · rw [hp]; simp [pyOrStr, h]
  · rw [hp]; simp [pyOrStr, h, h2]
  · rw [hp]; simp [pyOrStr, h, h2]

/-- C6 witness: the precedence clauses at concrete inputs. -/
theorem C6_witness :
    (Artifact.init none (some "k2") none none false none (some 7) none (some "p2")
        (some { ArtifactMetadata.default with key := some "k1", project := some "p1" })
        (some { ArtifactSpec.default with size := some 3, viewer := some "web" })).meta.key
      = some "k2"
    ∧ (Artifact.init none (some "k2") none none false none (some 7) none (some "p2")
        (some { ArtifactMetadata.default with key := some "k1", project := some "p1" })
        (some { ArtifactSpec.default with size := some 3, viewer := some "web" })).spec.size
      = some 7
    ∧ (Artifact.init none (some "k2") none none false none (some 7) none (some "p2")
        (some { ArtifactMetadata.default with key := some "k1", project := some "p1" })
        (some { ArtifactSpec.default with size := some 3, viewer := some "web" })).spec.viewer
      = some "web"
    ∧ (Artifact.init none (some "k2") none none false none (some 7) none (some "p2")
        (some { ArtifactMetadata.default with key := some "k1", project := some "p1" })
        (some { ArtifactSpec.default with size := some 3, viewer := some "web" })).meta.project
      = some "p2" := by
  have h := C6_init_precedence none (some "k2") none none none (some "p2") (some 7)
    { ArtifactMetadata.default with key := some "k1", project := some "p1" }
    { ArtifactSpec.default with size := some 3, viewer := some "web" }
  exact ⟨h.1 (by decide), h.2.2.1 (by decide), h.2.2.2.2.2.2.2.2.2.1 rfl,
    h.2.2.2.2.2.2.2.2.2.2.1 (by decide)⟩

/-! ### C7 -/

/-- C7 counterexample: an artifact constructed with a non-empty body and
the inline flag left at its default has `spec.inline = none` — the body
is not readable via the inline accessor, refuting the claim's first
part. -/
theorem C7_counterexample :
    (Artifact.init none (some "model") (some (PyBody.bytes [97])) none false none none
        (some "store://out/x") none none none).spec.inline = none
    ∧ truthyBody (PyBody.bytes [97]) = true := by
  exact ⟨by rfl, by decide⟩

/-- C7 (amended): for every Artifact constructed with a truthy body, the
body is stored on the spec (readable via `get_body`), and is readable via
the `inline` accessor exactly when the `is_inline` flag is also set; on
every `ArtifactSpec`, reading `inline` returns the stored body when the
`is_inline` flag is set and `none` when it is not. -/
theorem C7_inline_semantics :
    (∀ (cfg key viewer fmt tgt proj : Option String) (sz : Option Nat)
        (isInl : Bool) (m : Option ArtifactMetadata) (s : Option ArtifactSpec) (b : PyBody),
      truthyBody b = true →
      (Artifact.init cfg key (some b) viewer isInl fmt sz tgt proj m s).spec.body = some b
      ∧ ((Artifact.init cfg key (some b) viewer isInl fmt sz tgt proj m s).spec.is_inline = true →
          (Artifact.init cfg key (some b) viewer isInl fmt sz tgt proj m s).spec.inline = some b))
    ∧ (∀ s : ArtifactSpec,
      (s.is_inline = true → s.inline = s.body) ∧ (s.is_inline = false → s.inline = none)) := by
  constructor
  · intro cfg key viewer fmt tgt proj sz isInl m s b hb
    have hbody : (Artifact.init cfg key (some b) viewer isInl fmt sz tgt proj m s).spec.body
        = some b := by
      simp [Artifact.init, truthyBodyOpt, hb]
    refine ⟨hbody, fun hflag => ?_⟩
    simp [ArtifactSpec.inline, hflag, hbody]
  · intro s
    constructor <;> intro h <;> simp [ArtifactSpec.inline, h]

/-- C7 witness: with the inline flag passed, the body is readable via the
inline accessor. -/
theorem C7_witness :
    (Artifact.init none (some "model") (some (PyBody.bytes [97])) none true none none
        (some "store://out/x") none none none).spec.inline = some (PyBody.bytes [97]) :=
  (C7_inline_semantics.1 none (some "model") none none (some "store://out/x") none none
    true none none (PyBody.bytes [97]) (by decide)).2 (by rfl)

/-! ### C5 -/

/-- Characterization of the `DirArtifact.upload` per-file loop: uploads
for the longest all-regular-file entry run, and the error of the first
non-regular entry if any. -/
theorem dirUploadLoop_spec (fs : FileSys) (p t : String) (files : List String) :
    dirUploadLoop fs p t files =
      ((files.takeWhile (fun f => fs.isfile (os_path_join p f))).map
         (fun f => StoreCall.uploadSrc (some (os_path_join t f)) (os_path_join p f)),
       (files.find? (fun f => !fs.isfile (os_path_join p f))).map
         (fun f => "file " ++ os_path_join p f ++ " not found, cant upload")) := by
  induction files with
  | nil => rfl
  | cons f rest ih =>
    by_cases h : fs.isfile (os_path_join p f)
    · simp [dirUploadLoop, h, List.takeWhile_cons, List.find?_cons, ih]
    · simp [dirUploadLoop, h, List.takeWhile_cons, List.find?_cons]

/-- C5: `DirArtifact.upload` raises a validation error before any store
call when `src_path` is unset (or empty); otherwise it walks the
immediate entries of `src_path` in listing order, uploading each regular
file to `target_path` joined with the entry's filename, raising a
validation error at the first non-regular entry while keeping the
uploads already performed. -/
theorem C5_dir_upload (fs : FileSys) (a : Artifact) :
    (truthyStrOpt a.spec.src_path = false →
      DirArtifact.upload fs a = (a, [], some "local/source path not specified"))
    ∧ (∀ p t, a.spec.src_path = some p → (p == "") = false →
        a.spec.target_path = some t →
      DirArtifact.upload fs a =
        (a,
         ((fs.listdir p).takeWhile (fun f => fs.isfile (os_path_join p f))).map
           (fun f => StoreCall.uploadSrc (some (os_path_join t f)) (os_path_join p f)),
         ((fs.listdir p).find? (fun f => !fs.isfile (os_path_join p f))).map
           (fun f => "file " ++ os_path_join p f ++ " not found, cant upload"))) := by
  constructor
  · intro h
    unfold DirArtifact.upload
    simp [h]
  · intro p t hp hpne ht
    unfold DirArtifact.upload
    have htr : truthyStrOpt a.spec.src_path = true := by
      rw [hp]; simp [truthyStrOpt, hpne]
    rw [htr]
    simp [hp, ht, dirUploadLoop_spec]

/-- C5 witness: a directory with a regular file then a non-regular entry:
the first file is uploaded, the loop raises at the second; and the unset
src_path case raises with no store call. -/
theorem C5_witness :
    DirArtifact.upload
      ⟨fun _ => ["f1", "sub", "f2"], fun q => !(q == "/src/sub"), fun _ => []⟩
      { kind := "dir", meta := ArtifactMetadata.default,
        spec := { ArtifactSpec.default with
          src_path := some "/src",
          target_path := some "store://t" },
        state := "created" }
      = ({ kind := "dir", meta := ArtifactMetadata.default,
           spec := { ArtifactSpec.default with
             src_path := some "/src",
             target_path := some "store://t" },
           state := "created" },
         [StoreCall.uploadSrc (some "store://t/f1") "/src/f1"],
         some "file /src/sub not found, cant upload")
    ∧ DirArtifact.upload fs0
        { kind := "dir", meta := ArtifactMetadata.default,
          spec := ArtifactSpec.default, state := "created" }
      = ({ kind := "dir", meta := ArtifactMetadata.default,
           spec := ArtifactSpec.default, state := "created" },
         [], some "local/source path not specified") := by
  constructor
  · exact ((C5_dir_upload
      ⟨fun _ => ["f1", "sub", "f2"], fun q => !(q == "/src/sub"), fun _ => []⟩
      { kind := "dir", meta := ArtifactMetadata.default,
        spec := { ArtifactSpec.default with
          src_path := some "/src",
          target_path := some "store://t" },
        state := "created" }).2 "/src" "store://t" rfl (by decide) rfl).trans (by decide)
  · exact (C5_dir_upload fs0
      { kind := "dir", meta := ArtifactMetadata.default,
        spec := ArtifactSpec.default, state := "created" }).1 (by decide)

/-! ### C8 -/

/-- C8: `upload_extra_data`, given a single extra-data entry whose value
is a relative path-like string (not absolute, no scheme separator),
resolves it against `src_path` when that is set, and when the resolved
local file does not exist raises a validation error with no store call
and the artifact unchanged. -/
theorem C8_extra_data_missing (fs : FileSys) (a : Artifact) (k item pfx : String)
    (upd : Bool) (habs : headIsSlash item = false) (hsch : hasSchemeSep item = false)
    (hmiss : fs.isfile (resolveExtraPath a.spec.src_path item) = false) :
    upload_extra_data fs a [(k, PyBody.str item)] pfx upd
      = (a, [], some ("extra data file " ++ resolveExtraPath a.spec.src_path item
          ++ " not found"))
    ∧ (∀ sp, a.spec.src_path = some sp → (sp == "") = false →
        resolveExtraPath a.spec.src_path item = os_path_join sp item) := by
  constructor
  · unfold upload_extra_data uploadExtraLoop
    simp [habs, hsch, hmiss]
  · intro sp hsp hne
    rw [hsp]
    simp [resolveExtraPath, truthyStrOpt, hne]

/-- C8 witness: the scenario `{"readme": "notes.txt"}` with `notes.txt`
missing under `src_path = "/src"`. -/
theorem C8_witness :
    upload_extra_data fs0
      { kind := "artifact", meta := ArtifactMetadata.default,
        spec := { ArtifactSpec.default with
          src_path := some "/src",
          target_path := some "store://t" },
        state := "created" }
      [("readme", PyBody.str "notes.txt")] "" true
      = ({ kind := "artifact", meta := ArtifactMetadata.default,
           spec := { ArtifactSpec.default with
             src_path := some "/src",
             target_path := some "store://t" },
           state := "created" },
         [], some "extra data file /src/notes.txt not found") :=
  ((C8_extra_data_missing fs0
    { kind := "artifact", meta := ArtifactMetadata.default,
      spec := { ArtifactSpec.default with
        src_path := some "/src",
        target_path := some "store://t" },
      state := "created" }
    "readme" "notes.txt" "" true (by decide) (by decide) (by decide)).1).trans (by decide)

/-! ### C1: injectivity of the generated store URI -/

/-- Little-endian base-10 decoding. -/
def ofDig : List Nat → Nat
  | [] => 0
  | d :: rest => d + 10 * ofDig rest

theorem ofDig_natDigitsAux : ∀ fuel n : Nat, n ≤ fuel →
    ofDig (natDigitsAux fuel n) = n := by
  intro fuel
  induction fuel with
  | zero => intro n h; interval_cases n; rfl
  | succ f ih =>
    intro n h
    by_cases hn : n = 0
    · subst hn; simp [natDigitsAux, ofDig]
    · have hdiv : n / 10 ≤ f := by
        have := Nat.div_lt_self (Nat.pos_of_ne_zero hn) (by norm_num : (1 : Nat) < 10)
        omega
      simp only [natDigitsAux, hn, if_false, ofDig, ih _ hdiv]
      omega

theorem natDigitsAux_lt : ∀ fuel n d : Nat, d ∈ natDigitsAux fuel n → d < 10 := by
  intro fuel
  induction fuel with
  | zero => intro n d h; simp [natDigitsAux] at h
  | succ f ih =>
    intro n d h
    by_cases hn : n = 0
    · simp [natDigitsAux, hn] at h
    · simp only [natDigitsAux, hn, if_false, List.mem_cons] at h
      rcases h with h | h
      · omega
      · exact ih _ _ h

/-- The numeric value of a decimal digit character. -/
def chVal (c : Char) : Nat := c.toNat - 48

theorem chVal_digitCh : ∀ d, d < 10 → chVal (digitCh d) = d := by decide

theorem digitCh_ne_colon : ∀ d, d < 10 → digitCh d ≠ ':' := by decide

/-- Decoding of the decimal rendering. -/
def decodeRepr (l : List Char) : Nat := ofDig (l.reverse.map chVal)

theorem decodeRepr_natRepr (n : Nat) : decodeRepr (natRepr n).data = n := by
  by_cases hn : n = 0
  · subst hn; rfl
  · have hdata : (natRepr n).data = ((natDigits n).map digitCh).reverse := by
      simp [natRepr, hn]
    rw [hdata, decodeRepr, List.reverse_reverse, List.map_map]
    have hmap : (natDigits n).map (chVal ∘ digitCh) = natDigits n := by
      have : ∀ d ∈ natDigits n, (chVal ∘ digitCh) d = d := by
        intro d hd
        exact chVal_digitCh d (natDigitsAux_lt n n d hd)
      calc (natDigits n).map (chVal ∘ digitCh) = (natDigits n).map id :=
            List.map_congr_left this
        _ = natDigits n := List.map_id (natDigits n)
    rw [hmap]
    exact ofDig_natDigitsAux n n le_rfl

theorem natRepr_inj (m n : Nat) (h : natRepr m = natRepr n) : m = n := by
  have h2 := congrArg (fun s => decodeRepr s.data) h
  simpa [decodeRepr_natRepr] using h2

theorem natRepr_no_colon (n : Nat) : ∀ c ∈ (natRepr n).data, c ≠ ':' := by
  by_cases hn : n = 0
  · subst hn
    intro c hc
    have : (natRepr 0).data = ['0'] := rfl
    rw [this] at hc
    simp at hc
    subst hc
    decide
  · intro c hc
    have hdata : (natRepr n).data = ((natDigits n).map digitCh).reverse := by
      simp [natRepr, hn]
    rw [hdata] at hc
    simp only [List.mem_reverse, List.mem_map] at hc
    obtain ⟨d, hd, rfl⟩ := hc
    exact digitCh_ne_colon d (natDigitsAux_lt n n d hd)

/-- Splitting a list at a first-occurrence separator: if `c` occurs in
neither prefix, the decomposition around `c` is unique. -/
theorem split_first (c : Char) :
    ∀ (p₁ : List Char) {p₂ r₁ r₂ : List Char}, c ∉ p₁ → c ∉ p₂ →
      p₁ ++ c :: r₁ = p₂ ++ c :: r₂ → p₁ = p₂ ∧ r₁ = r₂ := by
  intro p₁
  induction p₁ with
  | nil =>
    intro p₂ r₁ r₂ h₁ h₂ h
    cases p₂ with
    | nil => simpa using h
    | cons y ys =>
      exfalso
      simp only [List.nil_append, List.cons_append, List.cons.injEq] at h
      exact h₂ (h.1 ▸ List.mem_cons_self y ys)
  | cons x xs ih =>
    intro p₂ r₁ r₂ h₁ h₂ h
    cases p₂ with
    | nil =>
      exfalso
      simp only [List.nil_append, List.cons_append, List.cons.injEq] at h
      exact h₁ (h.1 ▸ List.mem_cons_self x xs)
    | cons y ys =>
      simp only [List.cons_append, List.cons.injEq] at h
      obtain ⟨rfl, h⟩ := h
      have hx : c ∉ xs := fun hm => h₁ (List.mem_cons_of_mem x hm)
      have hy : c ∉ ys := fun hm => h₂ (List.mem_cons_of_mem x hm)
      obtain ⟨rfl, rfl⟩ := ih hx hy h
      exact ⟨rfl, rfl⟩

/-- Splitting before a delimiter class: a prefix free of delimiters
followed by a suffix that is empty or delimiter-headed decomposes
uniquely. -/
theorem split_seps (d : Char → Bool) :
    ∀ (k₁ : List Char) {k₂ s₁ s₂ : List Char},
      (∀ c ∈ k₁, d c = false) → (∀ c ∈ k₂, d c = false) →
      (s₁ = [] ∨ ∃ c cs, s₁ = c :: cs ∧ d c = true) →
      (s₂ = [] ∨ ∃ c cs, s₂ = c :: cs ∧ d c = true) →
      k₁ ++ s₁ = k₂ ++ s₂ → k₁ = k₂ ∧ s₁ = s₂ := by
  intro k₁
  induction k₁ with
  | nil =>
    intro k₂ s₁ s₂ h₁ h₂ hs₁ hs₂ h
    cases k₂ with
    | nil => simpa using h
    | cons y ys =>
      exfalso
      simp only [List.nil_append, List.cons_append] at h
      rcases hs₁ with rfl | ⟨c, cs, rfl, hc⟩
      · exact List.noConfusion h
      · have hcy : c = y := (List.cons.inj h).1
        have : d y = false := h₂ y (List.mem_cons_self y ys)
        rw [hcy] at hc
        rw [this] at hc
        exact Bool.noConfusion hc
  | cons x xs ih =>
    intro k₂ s₁ s₂ h₁ h₂ hs₁ hs₂ h
    cases k₂ with
    | nil =>
      exfalso
      simp only [List.nil_append, List.cons_append] at h
      rcases hs₂ with rfl | ⟨c, cs, rfl, hc⟩
      · exact List.noConfusion h
      · have hcx : x = c := (List.cons.inj h).1
        have : d x = false := h₁ x (List.mem_cons_self x xs)
        rw [hcx] at this
        rw [this] at hc
        exact Bool.noConfusion hc
    | cons y ys =>
      simp only [List.cons_append, List.cons.injEq] at h
      obtain ⟨rfl, h⟩ := h
      have hx : ∀ c ∈ xs, d c = false := fun c hm => h₁ c (List.mem_cons_of_mem x hm)
      have hy : ∀ c ∈ ys, d c = false := fun c hm => h₂ c (List.mem_cons_of_mem x hm)
      obtain ⟨rfl, rfl⟩ := ih hx hy hs₁ hs₂ h
      exact ⟨rfl, rfl⟩

/-- The `#iter` fragment of the generated path. -/
def iterPart : Option Nat → List Char
  | some i => '#' :: (natRepr i).data
  | none => []

/-- The `:tag` fragment of the generated path. -/
def tagPart : Option String → List Char
  | some t => ':' :: t.data
  | none => []

/-- The suffix of the generated path after the db_key. -/
def sfx (t : Option String) (i : Option Nat) : List Char :=
  iterPart i ++ tagPart t

theorem tagPart_inj {t₁ t₂ : Option String} (h : tagPart t₁ = tagPart t₂) :
    t₁ = t₂ := by
  cases t₁ with
  | none => cases t₂ with
    | none => rfl
    | some u => exact absurd h (by simp [tagPart])
  | some u => cases t₂ with
    | none => exact absurd h (by simp [tagPart])
    | some v =>
      simp only [tagPart, List.cons.injEq, true_and] at h
      exact congrArg some (String.ext h)

theorem tagPart_head (t : Option String) :
    tagPart t = [] ∨ ∃ c cs, tagPart t = c :: cs ∧ (c == ':') = true := by
  cases t with
  | none => exact Or.inl rfl
  | some u => exact Or.inr ⟨':', u.data, rfl, by decide⟩

theorem sfx_inj {t₁ t₂ : Option String} {i₁ i₂ : Option Nat}
    (h : sfx t₁ i₁ = sfx t₂ i₂) : t₁ = t₂ ∧ i₁ = i₂ := by
  cases i₁ with
  | none =>
    cases i₂ with
    | none =>
      simp only [sfx, iterPart, List.nil_append] at h
      exact ⟨tagPart_inj h, rfl⟩
    | some n =>
      exfalso
      simp only [sfx, iterPart, List.nil_append, List.cons_append] at h
      rcases tagPart_head t₁ with ht | ⟨c, cs, ht, hc⟩
      · rw [ht] at h; exact List.noConfusion h
      · rw [ht] at h
        have : c = '#' := (List.cons.inj h).1
        rw [this] at hc
        exact Bool.noConfusion hc
  | some m =>
    cases i₂ with
    | none =>
      exfalso
      simp only [sfx, iterPart, List.nil_append, List.cons_append] at h
      rcases tagPart_head t₂ with ht | ⟨c, cs, ht, hc⟩
      · rw [ht] at h; exact List.noConfusion h
      · rw [ht] at h
        have : '#' = c := (List.cons.inj h).1
        rw [← this] at hc
        exact Bool.noConfusion hc
    | some n =>
      simp only [sfx, iterPart, List.cons_append, List.cons.injEq, true_and] at h
      have hdig₁ : ∀ c ∈ (natRepr m).data, (c == ':') = false := by
        intro c hc
        simpa using natRepr_no_colon m c hc
      have hdig₂ : ∀ c ∈ (natRepr n).data, (c == ':') = false := by
        intro c hc
        simpa using natRepr_no_colon n c hc
      obtain ⟨hdig, htag⟩ := split_seps (fun c => c == ':') (natRepr m).data
        hdig₁ hdig₂ (tagPart_head t₁) (tagPart_head t₂) h
      exact ⟨tagPart_inj htag, congrArg some (natRepr_inj m n (String.ext hdig))⟩

theorem sfx_head (t : Option String) (i : Option Nat) :
    sfx t i = [] ∨ ∃ c cs, sfx t i = c :: cs ∧ (c == '#' || c == ':') = true := by
  cases i with
  | some n => exact Or.inr ⟨'#', (natRepr n).data ++ tagPart t, rfl, by decide⟩
  | none =>
    cases t with
    | none => exact Or.inl rfl
    | some u => exact Or.inr ⟨':', u.data, rfl, by decide⟩

theorem gen_data (p k : String) (t : Option String) (i : Option Nat) :
    (generate_artifact_uri p k t i).data = p.data ++ '/' :: (k.data ++ sfx t i) := by
  cases t <;> cases i <;>
    simp [generate_artifact_uri, sfx, iterPart, tagPart, String.data_append]

/-- Injectivity of the generated path on separator-free components. -/
theorem generate_uri_inj (p₁ k₁ p₂ k₂ : String) (t₁ t₂ : Option String)
    (i₁ i₂ : Option Nat)
    (hp₁ : '/' ∉ p₁.data) (hp₂ : '/' ∉ p₂.data)
    (hk₁h : '#' ∉ k₁.data) (hk₁c : ':' ∉ k₁.data)
    (hk₂h : '#' ∉ k₂.data) (hk₂c : ':' ∉ k₂.data)
    (h : generate_artifact_uri p₁ k₁ t₁ i₁ = generate_artifact_uri p₂ k₂ t₂ i₂) :
    p₁ = p₂ ∧ k₁ = k₂ ∧ t₁ = t₂ ∧ i₁ = i₂ := by
  have hd := congrArg String.data h
  rw [gen_data, gen_data] at hd
  obtain ⟨hp, hrest⟩ := split_first '/' p₁.data hp₁ hp₂ hd
  have hk₁ : ∀ c ∈ k₁.data, (c == '#' || c == ':') = false := by
    intro c hc
    have h1 : c ≠ '#' := fun he => hk₁h (he ▸ hc)
    have h2 : c ≠ ':' := fun he => hk₁c (he ▸ hc)
    simp [h1, h2]
  have hk₂ : ∀ c ∈ k₂.data, (c == '#' || c == ':') = false := by
    intro c hc
    have h1 : c ≠ '#' := fun he => hk₂h (he ▸ hc)
    have h2 : c ≠ ':' := fun he => hk₂c (he ▸ hc)
    simp [h1, h2]
  obtain ⟨hk, hs⟩ := split_seps (fun c => c == '#' || c == ':') k₁.data
    hk₁ hk₂ (sfx_head t₁ i₁) (sfx_head t₂ i₂) hrest
  obtain ⟨hteq, hieq⟩ := sfx_inj hs
  exact ⟨String.ext hp, String.ext hk, hteq, hieq⟩

theorem get_store_uri_inj {u₁ u₂ : String}
    (h : get_store_uri artifactMarker u₁ = get_store_uri artifactMarker u₂) :
    u₁ = u₂ := by
  have hd := congrArg String.data h
  simp only [get_store_uri, artifactMarker, String.data_append] at hd
  apply String.ext
  simpa using hd

/-- C1: `get_store_url` is deterministic in the tuple
(project, db_key, tree, iter) — equal tuples give byte-identical URIs for
every `with_tag`/`project` argument — and injective on it for the default
arguments (`with_tag = true`, no project override) whenever the
components are valid: project and db_key present, project free of `/`,
db_key free of `#` and `:`. -/
theorem C1_store_url_det_inj (a b : Artifact) (p₁ k₁ p₂ k₂ : String)
    (ha1 : a.meta.project = some p₁) (ha2 : a.spec.db_key = some k₁)
    (hb1 : b.meta.project = some p₂) (hb2 : b.spec.db_key = some k₂)
    (hp₁ : '/' ∉ p₁.data) (hp₂ : '/' ∉ p₂.data)
    (hk₁h : '#' ∉ k₁.data) (hk₁c : ':' ∉ k₁.data)
    (hk₂h : '#' ∉ k₂.data) (hk₂c : ':' ∉ k₂.data) :
    ((a.meta.project, a.spec.db_key, a.meta.tree, a.meta.iter)
        = (b.meta.project, b.spec.db_key, b.meta.tree, b.meta.iter) →
      ∀ (wt : Bool) (pr : Option String),
        Artifact.get_store_url a wt pr = Artifact.get_store_url b wt pr)
    ∧ (Artifact.get_store_url a true none = Artifact.get_store_url b true none →
      (a.meta.project, a.spec.db_key, a.meta.tree, a.meta.iter)
        = (b.meta.project, b.spec.db_key, b.meta.tree, b.meta.iter)) := by
  constructor
  · intro h wt pr
    simp only [Prod.mk.injEq] at h
    obtain ⟨h1, h2, h3, h4⟩ := h
    simp [Artifact.get_store_url, h1, h2, h3, h4]
  · intro h
    simp only [Artifact.get_store_url, ha1, ha2, hb1, hb2] at h
    have hu := get_store_uri_inj h
    have : pyOrStr none (some p₁) = some p₁ := rfl
    simp only [pyOrStr, truthyStrOpt, Bool.false_eq_true, if_false, optToPyStr] at hu
    obtain ⟨hpe, hke, hte, hie⟩ := generate_uri_inj p₁ k₁ p₂ k₂
      a.meta.tree b.meta.tree a.meta.iter b.meta.iter
      hp₁ hp₂ hk₁h hk₁c hk₂h hk₂c hu
    simp [ha1, ha2, hb1, hb2, hpe, hke, hte, hie]

/-- C1 witness: two artifacts with the same valid tuple (differing in
other fields): their URIs agree for all arguments, and from URI equality
the tuple equality is recovered. -/
theorem C1_witness :
    Artifact.get_store_url
      { kind := "artifact",
        meta := { ArtifactMetadata.default with
          project := some "p", tree := some "t3", iter := some 12 },
        spec := { ArtifactSpec.default with db_key := some "k" },
        state := "created" } true none
    = Artifact.get_store_url
      { kind := "artifact",
        meta := { ArtifactMetadata.default with
          key := some "other", project := some "p", tree := some "t3", iter := some 12 },
        spec := { ArtifactSpec.default with db_key := some "k", size := some 9 },
        state := "created" } true none
    ∧ (some "p", some "k", some "t3", some 12)
      = ((some "p" : Option String), (some "k" : Option String),
         (some "t3" : Option String), (some 12 : Option Nat)) := by
  have h := C1_store_url_det_inj
    { kind := "artifact",
      meta := { ArtifactMetadata.default with
        project := some "p", tree := some "t3", iter := some 12 },
      spec := { ArtifactSpec.default with db_key := some "k" },
      state := "created" }
    { kind := "artifact",
      meta := { ArtifactMetadata.default with
        key := some "other", project := some "p", tree := some "t3", iter := some 12 },
      spec := { ArtifactSpec.default with db_key := some "k", size := some 9 },
      state := "created" }
    "p" "k" "p" "k" rfl rfl rfl rfl
    (by decide) (by decide) (by decide) (by decide) (by decide) (by decide)
  have hurl := h.1 rfl true none
  exact ⟨hurl, h.2 hurl⟩

/-! ### C3: legacy / current equivalence -/

theorem lookup_projectFields (fv : String → PyVal) (f : String) :
    ∀ fields : List String,
      (projectFields fv fields).lookup f =
        if f ∈ fields ∧ (fv f).isEmptyVal = false then some (fv f) else none := by
  intro fields
  induction fields with
  | nil => simp [projectFields]
  | cons g rest ih =>
    by_cases he : (fv g).isEmptyVal
    · have hpf : projectFields fv (g :: rest) = projectFields fv rest := by
        simp [projectFields, List.filter_cons, he]
      rw [hpf, ih]
      by_cases hfg : f = g
      · subst hfg
        simp [he]
      · simp [hfg]
    · have hpf : projectFields fv (g :: rest)
          = (g, fv g) :: projectFields fv rest := by
        simp [projectFields, List.filter_cons, he]
      rw [hpf]
      by_cases hfg : f = g
      · subst hfg
        simp [List.lookup, he]
      · have hfg2 : (f == g) = false := by
          simp [hfg]
        simp [List.lookup, hfg2, ih, hfg]

theorem lookup_append {α β : Type} [BEq α] (l₁ l₂ : List (α × β)) (a : α) :
    (l₁ ++ l₂).lookup a = (l₁.lookup a).or (l₂.lookup a) := by
  induction l₁ with
  | nil => simp [List.lookup]
  | cons p rest ih =>
    obtain ⟨k, v⟩ := p
    cases hak : a == k with
    | true => simp [List.lookup, hak, Option.or]
    | false => simp [List.lookup, hak, ih, Option.or]

theorem legacy_lookup (l : LegacyArtifact) (f : String) :
    (LegacyArtifact.to_dict l).lookup f =
      if f ∈ legacyFields ∧ (l.fieldVal f).isEmptyVal = false
      then some (l.fieldVal f) else none := by
  rw [LegacyArtifact.to_dict, lookup_projectFields]

/-- Lookup in the flattened current-artifact dict, split by the schema
part the field name belongs to. -/
theorem flat_lookup (a : Artifact) (f : String) (hkind : f ≠ "kind")
    (hstate : f ≠ "state") :
    (Artifact.flatDict a).lookup f =
      (if f ∈ metadataFields ∧ (a.meta.fieldVal f).isEmptyVal = false
       then some (a.meta.fieldVal f) else none).or
      (if f ∈ specFields ∧ (a.spec.fieldVal f).isEmptyVal = false
       then some (a.spec.fieldVal f) else none) := by
  rw [Artifact.flatDict]
  rw [lookup_append, lookup_append, lookup_append]
  rw [lookup_projectFields, lookup_projectFields]
  rw [ArtifactMetadata.to_dict, lookup_projectFields]
  rw [ArtifactSpec.to_dict, lookup_projectFields]
  have h1 : ¬(f ∈ (["kind"] : List String) ∧
      ((if f == "kind" then PyVal.vstr a.kind else PyVal.vnone)).isEmptyVal = false) := by
    intro hc
    exact hkind (by simpa using hc.1)
  have h2 : ¬(f ∈ (["state"] : List String) ∧
      ((if f == "state" then PyVal.vstr a.state else PyVal.vnone)).isEmptyVal = false) := by
    intro hc
    exact hstate (by simpa using hc.1)
  rw [if_neg h1, if_neg h2]
  simp [Option.or_none]

/-- C3 (amended): a `LegacyArtifact` and a current `Artifact` carrying
equal values for the shared data fields return byte-identical strings
from `get_store_url` (for all arguments), and their `to_dict` outputs
contain equal values for every field name shared between the two schemas
except `kind` — the base legacy artifact's `kind` is the empty string
(dropped from its dict) while the current artifact serializes
`kind = "artifact"`. -/
theorem C3_legacy_equiv (l : LegacyArtifact) (a : Artifact)
    (h1 : l.key = a.meta.key) (h2 : l.project = a.meta.project)
    (h3 : l.iter = a.meta.iter) (h4 : l.tree = a.meta.tree)
    (h5 : l.description = a.meta.description) (h6 : l.hash = a.meta.hash)
    (h7 : l.tag = a.meta.tag) (h8 : l.updated = a.meta.updated)
    (h9 : l.labels = a.meta.labels)
    (h10 : l.src_path = a.spec.src_path) (h11 : l.target_path = a.spec.target_path)
    (h12 : l.viewer = a.spec.viewer) (h13 : l.is_inline = a.spec.is_inline)
    (h14 : l.body = a.spec.body) (h15 : l.format = a.spec.format)
    (h16 : l.size = a.spec.size) (h17 : l.db_key = a.spec.db_key)
    (h18 : l.extra_data = a.spec.extra_data) (h19 : l.annotations = a.spec.annotations)
    (h20 : l.producer = a.spec.producer) (h21 : l.sources = a.spec.sources) :
    (∀ (wt : Bool) (pr : Option String),
      LegacyArtifact.get_store_url l wt pr = Artifact.get_store_url a wt pr)
    ∧ (∀ f ∈ legacyFields, f ≠ "kind" →
      (LegacyArtifact.to_dict l).lookup f = (Artifact.flatDict a).lookup f) := by
  have hinl : l.inline = a.spec.inline := by
    simp [LegacyArtifact.inline, ArtifactSpec.inline, h13, h14]
  constructor
  · intro wt pr
    simp [LegacyArtifact.get_store_url, Artifact.get_store_url, h2, h3, h4, h17]
  · intro f hf hkind
    simp only [legacyFields, List.mem_cons, List.mem_singleton,
      List.not_mem_nil, or_false] at hf
    rcases hf with rfl | rfl | rfl | rfl | rfl | rfl | rfl | rfl | rfl | rfl | rfl
      | rfl | rfl | rfl | rfl | rfl | rfl | rfl | rfl | rfl | rfl
    · rw [legacy_lookup, flat_lookup a _ (by decide) (by decide)]
      simp [LegacyArtifact.fieldVal, ArtifactMetadata.fieldVal, ArtifactSpec.fieldVal,
        legacyFields, metadataFields, specFields, h1]
    · exact absurd rfl hkind
    · rw [legacy_lookup, flat_lookup a _ (by decide) (by decide)]
      simp [LegacyArtifact.fieldVal, ArtifactMetadata.fieldVal, ArtifactSpec.fieldVal,
        legacyFields, metadataFields, specFields, h3]
    · rw [legacy_lookup, flat_lookup a _ (by decide) (by decide)]
      simp [LegacyArtifact.fieldVal, ArtifactMetadata.fieldVal, ArtifactSpec.fieldVal,
        legacyFields, metadataFields, specFields, h4]
    · rw [legacy_lookup, flat_lookup a _ (by decide) (by decide)]
      simp [LegacyArtifact.fieldVal, ArtifactMetadata.fieldVal, ArtifactSpec.fieldVal,
        legacyFields, metadataFields, specFields, h10]
    · rw [legacy_lookup, flat_lookup a _ (by decide) (by decide)]
      simp [LegacyArtifact.fieldVal, ArtifactMetadata.fieldVal, ArtifactSpec.fieldVal,
        legacyFields, metadataFields, specFields, h11]
    · rw [legacy_lookup, flat_lookup a _ (by decide) (by decide)]
      simp [LegacyArtifact.fieldVal, ArtifactMetadata.fieldVal, ArtifactSpec.fieldVal,
        legacyFields, metadataFields, specFields, h6]
    · rw [legacy_lookup, flat_lookup a _ (by decide) (by decide)]
      simp [LegacyArtifact.fieldVal, ArtifactMetadata.fieldVal, ArtifactSpec.fieldVal,
        legacyFields, metadataFields, specFields, h5]
    · rw [legacy_lookup, flat_lookup a _ (by decide) (by decide)]
      simp [LegacyArtifact.fieldVal, ArtifactMetadata.fieldVal, ArtifactSpec.fieldVal,
        legacyFields, metadataFields, specFields, h12]
    · rw [legacy_lookup, flat_lookup a _ (by decide) (by decide)]
      simp [LegacyArtifact.fieldVal, ArtifactMetadata.fieldVal, ArtifactSpec.fieldVal,
        legacyFields, metadataFields, specFields, hinl]
    · rw [legacy_lookup, flat_lookup a _ (by decide) (by decide)]
      simp [LegacyArtifact.fieldVal, ArtifactMetadata.fieldVal, ArtifactSpec.fieldVal,
        legacyFields, metadataFields, specFields, h15]
    · rw [legacy_lookup, flat_lookup a _ (by decide) (by decide)]
      simp [LegacyArtifact.fieldVal, ArtifactMetadata.fieldVal, ArtifactSpec.fieldVal,
        legacyFields, metadataFields, specFields, h16]
    · rw [legacy_lookup, flat_lookup a _ (by decide) (by decide)]
      simp [LegacyArtifact.fieldVal, ArtifactMetadata.fieldVal, ArtifactSpec.fieldVal,
        legacyFields, metadataFields, specFields, h17]
    · rw [legacy_lookup, flat_lookup a _ (by decide) (by decide)]
      simp [LegacyArtifact.fieldVal, ArtifactMetadata.fieldVal, ArtifactSpec.fieldVal,
        legacyFields, metadataFields, specFields, h18]
    · rw [legacy_lookup, flat_lookup a _ (by decide) (by decide)]
      simp [LegacyArtifact.fieldVal, ArtifactMetadata.fieldVal, ArtifactSpec.fieldVal,
        legacyFields, metadataFields, specFields, h7]
    · rw [legacy_lookup, flat_lookup a _ (by decide) (by decide)]
      simp [LegacyArtifact.fieldVal, ArtifactMetadata.fieldVal, ArtifactSpec.fieldVal,
        legacyFields, metadataFields, specFields, h8]
    · rw [legacy_lookup, flat_lookup a _ (by decide) (by decide)]
      simp [LegacyArtifact.fieldVal, ArtifactMetadata.fieldVal, ArtifactSpec.fieldVal,
        legacyFields, metadataFields, specFields, h9]
    · rw [legacy_lookup, flat_lookup a _ (by decide) (by decide)]
      simp [LegacyArtifact.fieldVal, ArtifactMetadata.fieldVal, ArtifactSpec.fieldVal,
        legacyFields, metadataFields, specFields, h19]
    · rw [legacy_lookup, flat_lookup a _ (by decide) (by decide)]
      simp [LegacyArtifact.fieldVal, ArtifactMetadata.fieldVal, ArtifactSpec.fieldVal,
        legacyFields, metadataFields, specFields, h20]
    · rw [legacy_lookup, flat_lookup a _ (by decide) (by decide)]
      simp [LegacyArtifact.fieldVal, ArtifactMetadata.fieldVal, ArtifactSpec.fieldVal,
        legacyFields, metadataFields, specFields, h21]
    · rw [legacy_lookup, flat_lookup a _ (by decide) (by decide)]
      simp [LegacyArtifact.fieldVal, ArtifactMetadata.fieldVal, ArtifactSpec.fieldVal,
        legacyFields, metadataFields, specFields, h2]

/-- A base legacy artifact used by the C3 closed theorems. -/
def legacy0 : LegacyArtifact :=
  { kind := "", key := some "model", project := some "p", db_key := some "k",
    size := some 3, iter := some 1, tree := some "t", updated := none,
    target_path := some "store://t", src_path := none, body := none,
    format := none, description := none, viewer := none, encoding := none,
    labels := [("a", "b")], annotations := none, sources := [], producer := none,
    hash := none, is_inline := false, license := "", extra_data := [], tag := none }

/-- The current artifact carrying the same data-field values as
`legacy0`. -/
def art0 : Artifact :=
  { kind := "artifact",
    meta := { key := some "model", project := some "p", iter := some 1,
              tree := some "t", description := none, hash := none, tag := none,
              labels := [("a", "b")], updated := none },
    spec := { ArtifactSpec.default with
      db_key := some "k",
      size := some 3,
      target_path := some "store://t" },
    state := "created" }

/-- C3 counterexample: `kind` is a field name shared between the two
schemas, but for a base legacy artifact and a current artifact with equal
values on every shared data field, the legacy `to_dict` omits `kind`
(its value is the empty string) while the current output carries
`kind = "artifact"` — so the outputs do not contain equal values for
*every* shared field name, as the claim states. -/
theorem C3_counterexample :
    "kind" ∈ legacyFields
    ∧ legacy0.key = art0.meta.key ∧ legacy0.project = art0.meta.project
    ∧ legacy0.iter = art0.meta.iter ∧ legacy0.tree = art0.meta.tree
    ∧ legacy0.db_key = art0.spec.db_key ∧ legacy0.size = art0.spec.size
    ∧ legacy0.target_path = art0.spec.target_path
    ∧ (LegacyArtifact.to_dict legacy0).lookup "kind" = none
    ∧ (Artifact.flatDict art0).lookup "kind" = some (PyVal.vstr "artifact")
    ∧ ¬((LegacyArtifact.to_dict legacy0).lookup "kind"
        = (Artifact.flatDict art0).lookup "kind") := by
  refine ⟨by decide, rfl, rfl, rfl, rfl, rfl, rfl, rfl, by decide, by decide, by decide⟩

/-- C3 witness: the amended equivalence at the concrete pair. -/
theorem C3_witness :
    LegacyArtifact.get_store_url legacy0 true none
      = Artifact.get_store_url art0 true none
    ∧ (LegacyArtifact.to_dict legacy0).lookup "key"
      = (Artifact.flatDict art0).lookup "key"
    ∧ (LegacyArtifact.to_dict legacy0).lookup "size"
      = (Artifact.flatDict art0).lookup "size" := by
  have h := C3_legacy_equiv legacy0 art0 rfl rfl rfl rfl rfl rfl rfl rfl rfl rfl
    rfl rfl rfl rfl rfl rfl rfl rfl rfl rfl rfl
  exact ⟨h.1 true none, h.2 "key" (by decide) (by decide),
    h.2 "size" (by decide) (by decide)⟩
